import Mathlib

/-!
Shallow embedding of the profile-creation endpoint
(src/routes/profiles.py and src/schemas/profiles.py).

The handler is embedded as a pure function from its inputs (path
parameter, token-decode outcome, database contents, object-storage
oracles, validated form data) to an explicit outcome record carrying the
HTTP response, the resulting database state, and flags recording whether
the avatar-upload block was entered and whether a commit happened.
-/

deriving instance DecidableEq for Except

namespace Profiles

/-- Modelled from the spec: the user-group enumeration
\x7bREGULAR, MODERATOR, ADMIN\x7d (the database models module is not
under src; the route only references MODERATOR and ADMIN). -/
inductive UserGroupEnum where
  | REGULAR
  | MODERATOR
  | ADMIN
deriving DecidableEq, Repr

/-- Modelled from the spec: a user row as the route reads it
(database models are not under src): primary-key id, active flag and a
single eagerly-loaded group. -/
structure UserModel where
  id : Nat
  is_active : Bool
  group : UserGroupEnum
deriving DecidableEq, Repr

/-- Modelled from the spec: role membership is a capability check over
the enumerated role set, one group per user. -/
def UserModel.has_group (u : UserModel) (g : UserGroupEnum) : Bool :=
  u.group == g

/-- A calendar date; the birth-date policy itself is external. -/
structure Date where
  year : Nat
  month : Nat
  day : Nat
deriving DecidableEq, Repr

/-- Modelled from the spec: a profile row (database models are not under
src): generated id, unique user_id, the validated fields, and the avatar
storage key. -/
structure UserProfileModel where
  id : Nat
  user_id : Nat
  first_name : String
  last_name : String
  gender : String
  date_of_birth : Date
  info : String
  avatar : String
deriving DecidableEq, Repr

/-- The database state visible to the handler: user rows, profile rows,
and the next generated profile id. -/
structure DB where
  users : List UserModel
  profiles : List UserProfileModel
  next_profile_id : Nat
deriving DecidableEq, Repr

/-- An uploaded file handle: original filename plus the outcome of
reading its bytes (ok with the contents, or an exception). -/
structure UploadFile where
  filename : String
  read : Except Unit (List Nat)
deriving DecidableEq, Repr

/-- The validated form object produced by
ProfileCreateRequestSchema.as_form (src/schemas/profiles.py). -/
structure ProfileCreateRequestSchema where
  first_name : String
  last_name : String
  gender : String
  date_of_birth : Date
  info : String
  avatar : UploadFile
deriving DecidableEq, Repr

/-- The response schema (src/schemas/profiles.py, ProfileResponseSchema). -/
structure ProfileResponseSchema where
  id : Nat
  user_id : Nat
  first_name : String
  last_name : String
  gender : String
  date_of_birth : Date
  info : String
  avatar : String
deriving DecidableEq, Repr

/-- An HTTPException as raised by the route and the schema validators:
status code plus optional detail string. -/
structure HTTPException where
  status_code : Nat
  detail : Option String
deriving DecidableEq, Repr

/-- The object-storage client: upload and URL resolution, each of which
may raise (any exception is folded into the same handler branch, so the
exception payload is Unit). -/
structure S3Client where
  upload_file : String → List Nat → Except Unit Unit
  get_file_url : String → Except Unit String

/-- Python dict.get on a decoded token payload: the first binding of the
key, if any. -/
def dictGet (d : List (String × Nat)) (k : String) : Option Nat :=
  (d.find? (fun p => p.1 == k)).map (fun p => p.2)

/-- The observable outcome of one handler invocation: the HTTP response,
the database state after the call, whether the avatar try-block was
entered, and whether a commit happened. -/
structure HandlerOutcome where
  response : Except HTTPException ProfileResponseSchema
  db : DB
  upload_attempted : Bool
  committed : Bool
deriving DecidableEq, Repr

/-- The avatar storage key computed at src/routes/profiles.py line 82. -/
def avatarKey (user_id : Nat) (filename : String) : String :=
  "avatars/" ++ toString user_id ++ "_" ++ filename

/-- src/routes/profiles.py, create_user_profile, embedded line by line.
The decoded token is passed as the outcome of
jwt_manager.decode_access_token (error = a BaseSecurityError with its
message); the database select statements become list lookups; SQLAlchemy
renders a comparison of the non-null id column with None as IS NULL,
which matches no row, hence the lookup compares some u.id with the
optional requesting_user_id. -/
def create_user_profile (user_id : Nat)
    (decode_access_token : Except String (List (String × Nat)))
    (db : DB) (s3_client : S3Client)
    (profile_data : ProfileCreateRequestSchema) : HandlerOutcome :=
  match decode_access_token with
  | .error e => ⟨.error ⟨401, some e⟩, db, false, false⟩
  | .ok decoded_token =>
    let requesting_user_id : Option Nat := dictGet decoded_token "user_id"
    match db.users.find? (fun u => some u.id == requesting_user_id) with
    | none => ⟨.error ⟨401, some "User not found or not active."⟩, db, false, false⟩
    | some requesting_user =>
      if !requesting_user.is_active then
        ⟨.error ⟨401, some "User not found or not active."⟩, db, false, false⟩
      else
        let is_privileged := requesting_user.has_group .ADMIN ||
          requesting_user.has_group .MODERATOR
        if requesting_user_id != some user_id && !is_privileged then
          ⟨.error ⟨403, some "You don\x27t have permission to edit this profile."⟩,
            db, false, false⟩
        else
          match db.users.find? (fun u => u.id == user_id) with
          | none => ⟨.error ⟨401, some "User not found or not active."⟩, db, false, false⟩
          | some target_user =>
            if !target_user.is_active then
              ⟨.error ⟨401, some "User not found or not active."⟩, db, false, false⟩
            else
              match db.profiles.find? (fun p => p.user_id == user_id) with
              | some _ =>
                ⟨.error ⟨400, some "User already has a profile."⟩, db, false, false⟩
              | none =>
                match profile_data.avatar.read with
                | .error _ =>
                  ⟨.error ⟨500, some "Failed to upload avatar. Please try again later."⟩,
                    db, true, false⟩
                | .ok avatar_contents =>
                  let avatar_key := avatarKey user_id profile_data.avatar.filename
                  match s3_client.upload_file avatar_key avatar_contents with
                  | .error _ =>
                    ⟨.error ⟨500, some "Failed to upload avatar. Please try again later."⟩,
                      db, true, false⟩
                  | .ok _ =>
                    match s3_client.get_file_url avatar_key with
                    | .error _ =>
                      ⟨.error ⟨500, some "Failed to upload avatar. Please try again later."⟩,
                        db, true, false⟩
                    | .ok avatar_url =>
                      let new_profile : UserProfileModel :=
                        { id := db.next_profile_id
                          user_id := user_id
                          first_name := profile_data.first_name
                          last_name := profile_data.last_name
                          gender := profile_data.gender
                          date_of_birth := profile_data.date_of_birth
                          info := profile_data.info
                          avatar := avatar_key }
                      let db2 : DB :=
                        { db with
                          profiles := db.profiles ++ [new_profile]
                          next_profile_id := db.next_profile_id + 1 }
                      let response_data : ProfileResponseSchema :=
                        { id := new_profile.id
                          user_id := new_profile.user_id
                          first_name := new_profile.first_name
                          last_name := new_profile.last_name
                          gender := new_profile.gender
                          date_of_birth := new_profile.date_of_birth
                          info := new_profile.info
                          avatar := new_profile.avatar }
                      ⟨.ok { response_data with avatar := avatar_url }, db2, true, true⟩

/-! ## The request validator (src/schemas/profiles.py) -/

/-- Modelled from the spec: the validation module imported by the schema
(validate_name, validate_image, validate_gender, validate_birth_date) is
not under src; the spec treats these as pluggable external field
policies that either pass or raise a ValueError. -/
structure FieldPolicies where
  validate_name : String → Except Unit Unit
  validate_image : UploadFile → Except Unit Unit
  validate_gender : String → Except Unit Unit
  validate_birth_date : Date → Except Unit Unit

/-- Python str.lower for ASCII text: lower-case each character. -/
def pyLower (s : String) : String :=
  String.mk (s.data.map Char.toLower)

/-- validate_name_field (src/schemas/profiles.py lines 41-48): on
success the name is lower-cased; a ValueError becomes HTTPException(422)
with no detail. Applied to both first_name and last_name. -/
def validate_name_field (P : FieldPolicies) (name : String) :
    Except HTTPException String :=
  match P.validate_name name with
  | .ok _ => .ok (pyLower name)
  | .error _ => .error ⟨422, none⟩

/-- validate_avatar (lines 50-57). -/
def validate_avatar (P : FieldPolicies) (avatar : UploadFile) :
    Except HTTPException UploadFile :=
  match P.validate_image avatar with
  | .ok _ => .ok avatar
  | .error _ => .error ⟨422, none⟩

/-- validate_gender_field (lines 59-66). -/
def validate_gender_field (P : FieldPolicies) (gender : String) :
    Except HTTPException String :=
  match P.validate_gender gender with
  | .ok _ => .ok gender
  | .error _ => .error ⟨422, none⟩

/-- validate_date_of_birth (lines 68-75). -/
def validate_date_of_birth (P : FieldPolicies) (date_of_birth : Date) :
    Except HTTPException Date :=
  match P.validate_birth_date date_of_birth with
  | .ok _ => .ok date_of_birth
  | .error _ => .error ⟨422, none⟩

/-- The whitespace set of Python str.strip for ASCII text. -/
def pyIsSpace (c : Char) : Bool :=
  c == ' ' || c == '\t' || c == '\n' || c == '\r' || c == '\x0b' || c == '\x0c'

/-- Python str.strip: drop leading and trailing whitespace. -/
def pyStrip (s : String) : String :=
  String.mk (((s.data.dropWhile pyIsSpace).reverse.dropWhile pyIsSpace).reverse)

/-- validate_info (lines 77-83): strip; empty result is rejected with
HTTPException(422); otherwise the stripped value is returned. -/
def validate_info (info : String) : Except HTTPException String :=
  let cleaned_info := pyStrip info
  if cleaned_info = "" then .error ⟨422, none⟩ else .ok cleaned_info

/-- The raw multipart form fields as bound by as_form (lines 22-39);
date_of_birth arrives already coerced to a date by the framework. -/
structure RawForm where
  first_name : String
  last_name : String
  gender : String
  date_of_birth : Date
  info : String
  avatar : UploadFile
deriving DecidableEq, Repr

/-- ProfileCreateRequestSchema.as_form followed by pydantic model
construction: field validators run in field declaration order
(first_name, last_name, gender, date_of_birth, info, avatar); an
HTTPException raised inside a validator is not a ValueError, so it
propagates immediately (fail-fast) and no object is constructed. -/
def ProfileCreateRequestSchema.as_form (P : FieldPolicies) (r : RawForm) :
    Except HTTPException ProfileCreateRequestSchema := do
  let first_name ← validate_name_field P r.first_name
  let last_name ← validate_name_field P r.last_name
  let gender ← validate_gender_field P r.gender
  let date_of_birth ← validate_date_of_birth P r.date_of_birth
  let info ← validate_info r.info
  let avatar ← validate_avatar P r.avatar
  return { first_name := first_name
           last_name := last_name
           gender := gender
           date_of_birth := date_of_birth
           info := info
           avatar := avatar }

/-- The first field, in pydantic validation order, whose validator
rejects its value (none when every field passes). -/
def firstFailingField (P : FieldPolicies) (r : RawForm) : Option String :=
  match validate_name_field P r.first_name with
  | .error _ => some "first_name"
  | .ok _ =>
  match validate_name_field P r.last_name with
  | .error _ => some "last_name"
  | .ok _ =>
  match validate_gender_field P r.gender with
  | .error _ => some "gender"
  | .ok _ =>
  match validate_date_of_birth P r.date_of_birth with
  | .error _ => some "date_of_birth"
  | .ok _ =>
  match validate_info r.info with
  | .error _ => some "info"
  | .ok _ =>
  match validate_avatar P r.avatar with
  | .error _ => some "avatar"
  | .ok _ => none

/-- Modelled from the spec: the full endpoint as the framework runs it.
Section 2 of the spec fixes the control flow of the framework glue
(dependency resolution), which is not itself repository code: the
Validator runs first, field-level and independent of identity, and the
Handler body runs only afterwards. A validation failure therefore
surfaces as its HTTPException with no handler step executed. -/
def endpoint (P : FieldPolicies) (r : RawForm) (user_id : Nat)
    (decode_access_token : Except String (List (String × Nat)))
    (db : DB) (s3_client : S3Client) : HandlerOutcome :=
  match ProfileCreateRequestSchema.as_form P r with
  | .error e => ⟨.error e, db, false, false⟩
  | .ok profile_data =>
      create_user_profile user_id decode_access_token db s3_client profile_data

/-! ## Concurrent duplicate requests (spec sections 5 and 8)

Each request for one fixed target user performs, in order, two atomic
database operations taken from the handler: the SELECT of an existing
profile (lines 70-72, answering whether one exists) and, when the check
found none, the INSERT plus COMMIT (lines 102-103). The state tracks how
many profile rows exist for the target user. -/

/-- The phase of one request: not yet run; after the uniqueness check
(recording what it saw); finished (recording whether a profile was
created by this request). -/
inductive ReqPhase where
  | start
  | checked (existing : Bool)
  | done (success : Bool)
deriving DecidableEq, Repr

/-- State of n concurrent identical requests: the number of profile rows
for the target user, and each request phase. -/
structure ConcState where
  profile_count : Nat
  reqs : List ReqPhase
deriving DecidableEq, Repr

/-- One atomic step of a single request. Modelled from the spec: the
persistent store enforces a uniqueness constraint on the profile
user-id column (database schema is not under src), so the INSERT is
atomic and fails when a row already exists, whatever the earlier check
saw. A request whose check saw a profile stops with the 400 conflict. -/
def stepReq (count : Nat) : ReqPhase → Nat × ReqPhase
  | .start => (count, .checked (count != 0))
  | .checked true => (count, .done false)
  | .checked false =>
      if count != 0 then (count, .done false)
      else (count + 1, .done true)
  | .done b => (count, .done b)

/-- Run one atomic step of request i (no-op for an out-of-range index). -/
def stepConc (s : ConcState) (i : Nat) : ConcState :=
  match s.reqs.get? i with
  | none => s
  | some ph =>
      let r := stepReq s.profile_count ph
      { profile_count := r.1, reqs := s.reqs.set i r.2 }

/-- Run an arbitrary interleaving: the schedule lists which request
steps next. -/
def execConc (s : ConcState) (sched : List Nat) : ConcState :=
  sched.foldl stepConc s

/-- n concurrent identical requests against a user with no profile. -/
def initConc (n : Nat) : ConcState :=
  ⟨0, List.replicate n .start⟩

/-- Whether a request finished having created a profile. -/
def isSuccess : ReqPhase → Bool
  | .done true => true
  | _ => false

/-- How many of the requests created a profile. -/
def successes (s : ConcState) : Nat :=
  s.reqs.countP isSuccess

/-! ## Concrete fixtures used by witnesses and counterexamples -/

/-- A permissive policy set accepting every field value. -/
def acceptAllPolicies : FieldPolicies :=
  { validate_name := fun _ => .ok ()
    validate_image := fun _ => .ok ()
    validate_gender := fun _ => .ok ()
    validate_birth_date := fun _ => .ok () }

/-- A policy set whose gender policy accepts exactly man and woman. -/
def strictGenderPolicies : FieldPolicies :=
  { validate_name := fun _ => .ok ()
    validate_image := fun _ => .ok ()
    validate_gender := fun g => if g == "man" || g == "woman" then .ok () else .error ()
    validate_birth_date := fun _ => .ok () }

/-- An object-storage client whose operations all succeed. -/
def sampleS3 : S3Client :=
  { upload_file := fun _ _ => .ok ()
    get_file_url := fun k => .ok ("https://storage.example.com/" ++ k) }

/-- An object-storage client whose upload always raises. -/
def failingS3 : S3Client :=
  { upload_file := fun _ _ => .error ()
    get_file_url := fun _ => .error () }

def sampleAvatar : UploadFile := ⟨"pic.png", .ok [137, 80]⟩

def sampleDate : Date := ⟨1990, 1, 1⟩

def sampleForm : RawForm :=
  ⟨"JOHN", "Doe", "man", sampleDate, " hello ", sampleAvatar⟩

/-- sampleForm after validation. -/
def samplePD : ProfileCreateRequestSchema :=
  ⟨"john", "doe", "man", sampleDate, "hello", sampleAvatar⟩

def badInfoForm : RawForm := { sampleForm with info := "   " }

def badGenderForm : RawForm := { sampleForm with gender := "unspecified" }

/-- Users 5 and 9 are regular, user 7 is a moderator; all active. -/
def dbNoProfile : DB :=
  ⟨[⟨5, true, .REGULAR⟩, ⟨7, true, .MODERATOR⟩, ⟨9, true, .REGULAR⟩], [], 1⟩

def sampleProfileRow : UserProfileModel :=
  ⟨1, 5, "john", "doe", "man", sampleDate, "hello", "avatars/5_pic.png"⟩

/-- Same users, but user 5 already has a profile. -/
def dbWithProfile : DB :=
  { dbNoProfile with profiles := [sampleProfileRow], next_profile_id := 2 }

/-! ## Helper lemmas -/

/-- Exhaustive characterization of as_form: either some field fails and
the result is the bare 422 error, or every field passes and the
constructed object carries the normalized field values. -/
theorem as_form_spec (P : FieldPolicies) (r : RawForm) :
    ((firstFailingField P r).isSome = true ∧
      ProfileCreateRequestSchema.as_form P r = .error ⟨422, none⟩) ∨
    (firstFailingField P r = none ∧
      ProfileCreateRequestSchema.as_form P r =
        .ok { first_name := pyLower r.first_name
              last_name := pyLower r.last_name
              gender := r.gender
              date_of_birth := r.date_of_birth
              info := pyStrip r.info
              avatar := r.avatar }) := by
  unfold ProfileCreateRequestSchema.as_form firstFailingField
  unfold validate_name_field validate_gender_field validate_date_of_birth
  unfold validate_avatar validate_info
  rcases h1 : P.validate_name r.first_name with u1 | u1 <;>
  rcases h2 : P.validate_name r.last_name with u2 | u2 <;>
  rcases h3 : P.validate_gender r.gender with u3 | u3 <;>
  rcases h4 : P.validate_birth_date r.date_of_birth with u4 | u4 <;>
  rcases h5 : P.validate_image r.avatar with u5 | u5 <;>
  by_cases h6 : pyStrip r.info = "" <;>
  simp [h1, h2, h3, h4, h5, h6, bind, Except.bind, pure, Except.pure]

/-- Every validation failure of as_form carries the same bare error:
status 422 and no detail. -/
theorem as_form_error_eq (P : FieldPolicies) (r : RawForm) (exc : HTTPException)
    (h : ProfileCreateRequestSchema.as_form P r = .error exc) : exc = ⟨422, none⟩ := by
  rcases as_form_spec P r with ⟨_, h2⟩ | ⟨_, h2⟩
  · rw [h] at h2
    injection h2 with h3
  · rw [h] at h2
    exact Except.noConfusion h2

/-! ## Claim theorems: the request validator -/

/-- C6 counterexample: two raw forms whose first failing fields differ
(gender for one, info for the other) produce identical validation
errors, a bare HTTPException with status 422 and no detail, so the error
does not identify the first failing field as the claim states. -/
theorem as_form_error_not_field_scoped_cex :
    ProfileCreateRequestSchema.as_form strictGenderPolicies badGenderForm =
      .error ⟨422, none⟩ ∧
    ProfileCreateRequestSchema.as_form strictGenderPolicies badInfoForm =
      .error ⟨422, none⟩ ∧
    firstFailingField strictGenderPolicies badGenderForm = some "gender" ∧
    firstFailingField strictGenderPolicies badInfoForm = some "info" :=
  ⟨rfl, rfl, rfl, rfl⟩

/-- C6 (amended): for every set of raw form fields containing at least
one invalid field, the Request Validator fails fast with an HTTP
422-equivalent error and no partially constructed request object is
produced; the error, however, is a bare 422 with no detail and does not
identify which field failed. -/
theorem as_form_fail_fast (P : FieldPolicies) (r : RawForm) :
    (ProfileCreateRequestSchema.as_form P r = .error ⟨422, none⟩ ↔
      (firstFailingField P r).isSome = true) ∧
    ((∃ pd, ProfileCreateRequestSchema.as_form P r = .ok pd) ↔
      firstFailingField P r = none) := by
  rcases as_form_spec P r with ⟨h1, h2⟩ | ⟨h1, h2⟩
  · refine ⟨⟨fun _ => h1, fun _ => h2⟩, ⟨?_, ?_⟩⟩
    · rintro ⟨pd, hpd⟩
      rw [h2] at hpd
      exact Except.noConfusion hpd
    · intro hn
      rw [hn] at h1
      exact absurd h1 (by simp)
  · refine ⟨⟨?_, ?_⟩, ⟨fun _ => h1, fun _ => ⟨_, h2⟩⟩⟩
    · intro he
      rw [h2] at he
      exact Except.noConfusion he
    · intro hs
      rw [h1] at hs
      exact absurd hs (by simp)

/-- C8: validate_info strips surrounding whitespace and rejects with a
422 exactly when the stripped result is empty; an accepted value is the
stripped input (a contiguous piece of the input with only whitespace
removed at both ends); in particular a blank info is rejected and a
padded hello is accepted as hello. -/
theorem validate_info_trims :
    (∀ info, validate_info info = .error ⟨422, none⟩ ↔ pyStrip info = "") ∧
    (∀ info v, validate_info info = .ok v → v = pyStrip info) ∧
    (∀ info, ∃ l r, info.data = l ++ (pyStrip info).data ++ r ∧
      (∀ c ∈ l, pyIsSpace c = true) ∧ (∀ c ∈ r, pyIsSpace c = true)) ∧
    validate_info "   " = .error ⟨422, none⟩ ∧
    validate_info " hello " = .ok "hello" := by
  refine ⟨?_, ?_, ?_, by decide, by decide⟩
  · intro info
    unfold validate_info
    by_cases h : pyStrip info = "" <;> simp [h]
  · intro info v h
    simp only [validate_info] at h
    by_cases hc : pyStrip info = ""
    · simp [hc] at h
    · simp [hc] at h
      exact h.symm
  · intro info
    refine ⟨info.data.takeWhile pyIsSpace,
      ((info.data.dropWhile pyIsSpace).reverse.takeWhile pyIsSpace).reverse,
      ?_, ?_, ?_⟩
    · unfold pyStrip
      conv_lhs =>
        rw [← List.takeWhile_append_dropWhile pyIsSpace info.data]
      rw [List.append_assoc]
      congr 1
      conv_lhs =>
        rw [← List.reverse_reverse (info.data.dropWhile pyIsSpace)]
        rw [← List.takeWhile_append_dropWhile pyIsSpace
          (info.data.dropWhile pyIsSpace).reverse]
      rw [List.reverse_append]
    · intro c hc
      exact List.mem_takeWhile_imp hc
    · intro c hc
      rw [List.mem_reverse] at hc
      exact List.mem_takeWhile_imp hc

/-- C8 witness: the accepted value for a padded input is the stripped
input, at the concrete input hello with padding. -/
theorem validate_info_trims_witness : "hello" = pyStrip " hello " :=
  validate_info_trims.2.1 " hello " "hello" rfl

/-- C9: a name accepted by the external name policy is normalized to
lower case (both the single-field validator and the constructed object);
a name rejected by the policy yields the 422 error; JOHN is accepted and
normalized to john under a policy that accepts it. -/
theorem validate_name_lowercases :
    (∀ (P : FieldPolicies) (name : String), P.validate_name name = .ok () →
      validate_name_field P name = .ok (pyLower name)) ∧
    (∀ (P : FieldPolicies) (name : String), P.validate_name name = .error () →
      validate_name_field P name = .error ⟨422, none⟩) ∧
    (∀ (P : FieldPolicies) (r : RawForm) (pd : ProfileCreateRequestSchema),
      ProfileCreateRequestSchema.as_form P r = .ok pd →
      pd.first_name = pyLower r.first_name ∧ pd.last_name = pyLower r.last_name) ∧
    validate_name_field acceptAllPolicies "JOHN" = .ok "john" := by
  refine ⟨?_, ?_, ?_, by decide⟩
  · intro P name h
    unfold validate_name_field
    rw [h]
  · intro P name h
    unfold validate_name_field
    rw [h]
  · intro P r pd h
    rcases as_form_spec P r with ⟨_, h2⟩ | ⟨_, h2⟩
    · rw [h] at h2
      exact Except.noConfusion h2
    · rw [h] at h2
      injection h2 with h3
      rw [h3]
      exact ⟨rfl, rfl⟩

/-- C9 witness: a name accepted by the policy comes back lower-cased, at
the concrete input MARY. -/
theorem validate_name_lowercases_witness :
    validate_name_field acceptAllPolicies "MARY" = .ok "mary" :=
  validate_name_lowercases.1 acceptAllPolicies "MARY" rfl

/-- C5 counterexample: a request whose bearer token decode fails (token
expired) but whose form body is invalid (blank info) is answered with
the bare 422 validation error, not with 401 Unauthorized: validation
precedes authentication. -/
theorem endpoint_validation_precedes_auth_cex :
    endpoint acceptAllPolicies badInfoForm 5 (.error "Token has expired.")
        dbNoProfile sampleS3 =
      ⟨.error ⟨422, none⟩, dbNoProfile, false, false⟩ ∧
    (422 : Nat) ≠ 401 :=
  ⟨rfl, by decide⟩

/-- C5 (amended): field validation runs before authentication: when the
form body is invalid the response is the 422 validation error even if
the token is also expired or malformed, and only when the form body is
valid does an expired or malformed token surface as 401 Unauthorized
with the decode error as detail, before any other handler step (no
database change, no upload, no commit). -/
theorem endpoint_auth_after_validation
    (P : FieldPolicies) (r : RawForm) (user_id : Nat) (e : String)
    (db : DB) (s3 : S3Client) :
    (∀ exc, ProfileCreateRequestSchema.as_form P r = .error exc →
      endpoint P r user_id (.error e) db s3 =
        ⟨.error ⟨422, none⟩, db, false, false⟩) ∧
    (∀ pd, ProfileCreateRequestSchema.as_form P r = .ok pd →
      endpoint P r user_id (.error e) db s3 =
        ⟨.error ⟨401, some e⟩, db, false, false⟩) := by
  constructor
  · intro exc h
    have he : exc = ⟨422, none⟩ := as_form_error_eq P r exc h
    unfold endpoint
    rw [h, he]
  · intro pd h
    unfold endpoint
    rw [h]
    rfl

/-- A caller acting on its own id or holding a privileged role does not
satisfy the 403 guard condition. -/
theorem auth_guard_false (user_id : Nat) (dg : Option Nat) (ru : UserModel)
    (hauth : dg = some user_id ∨ ru.has_group .MODERATOR = true ∨
      ru.has_group .ADMIN = true) :
    ¬(dg ≠ some user_id ∧ ru.has_group .ADMIN = false ∧
      ru.has_group .MODERATOR = false) := by
  rcases hauth with hq | hm | ha
  · intro hcon
    exact hcon.1 hq
  · intro hcon
    rw [hm] at hcon
    exact absurd hcon.2.2 (by simp)
  · intro hcon
    rw [ha] at hcon
    exact absurd hcon.2.1 (by simp)

/-! ## Claim theorems: the handler -/

/-- C10: when the bearer token decodes but its payload has no user_id
key, requesting_user_id is None, the caller lookup matches no row (the
non-null id column compared with None is IS NULL), and the request
fails with 401 and the not-found detail, exactly as for a missing or
inactive caller; the database is untouched and no upload or commit
happens. -/
theorem create_user_profile_no_user_id_key
    (user_id : Nat) (d : List (String × Nat)) (db : DB) (s3 : S3Client)
    (pd : ProfileCreateRequestSchema)
    (h : dictGet d "user_id" = none) :
    create_user_profile user_id (.ok d) db s3 pd =
      ⟨.error ⟨401, some "User not found or not active."⟩, db, false, false⟩ := by
  have hf : db.users.find? (fun u => some u.id == dictGet d "user_id") = none := by
    rw [h, List.find?_eq_none]
    intro u hu
    simp
  simp [create_user_profile, hf]

/-- C10 witness: a concrete payload without the user_id key yields the
not-found 401. -/
theorem create_user_profile_no_user_id_key_witness :
    create_user_profile 5 (.ok [("sub", 7)]) dbNoProfile sampleS3 samplePD =
      ⟨.error ⟨401, some "User not found or not active."⟩, dbNoProfile, false, false⟩ :=
  create_user_profile_no_user_id_key 5 [("sub", 7)] dbNoProfile sampleS3 samplePD rfl

/-- C1: when the caller authenticates, the authorization step passes,
the target user exists and is active, and a profile row for the target
user already exists, the handler fails with 400 and the detail saying
the user already has a profile; the database is returned unchanged, the
avatar upload block is never entered and no commit happens. -/
theorem create_user_profile_conflict
    (user_id : Nat) (d : List (String × Nat)) (db : DB) (s3 : S3Client)
    (pd : ProfileCreateRequestSchema) (ru tu : UserModel) (p : UserProfileModel)
    (hru : db.users.find? (fun u => some u.id == dictGet d "user_id") = some ru)
    (hactive : ru.is_active = true)
    (hauth : dictGet d "user_id" = some user_id ∨
      ru.has_group .MODERATOR = true ∨ ru.has_group .ADMIN = true)
    (htu : db.users.find? (fun u => u.id == user_id) = some tu)
    (htactive : tu.is_active = true)
    (hp : db.profiles.find? (fun q => q.user_id == user_id) = some p) :
    create_user_profile user_id (.ok d) db s3 pd =
      ⟨.error ⟨400, some "User already has a profile."⟩, db, false, false⟩ := by
  have hpass := auth_guard_false user_id (dictGet d "user_id") ru hauth
  simp [create_user_profile, hru, hactive, hpass, htu, htactive, hp]

/-- C1 witness: user 5, acting on itself, already has a profile. -/
theorem create_user_profile_conflict_witness :
    create_user_profile 5 (.ok [("user_id", 5)]) dbWithProfile sampleS3 samplePD =
      ⟨.error ⟨400, some "User already has a profile."⟩, dbWithProfile, false, false⟩ :=
  create_user_profile_conflict 5 [("user_id", 5)] dbWithProfile sampleS3 samplePD
    ⟨5, true, .REGULAR⟩ ⟨5, true, .REGULAR⟩ sampleProfileRow
    rfl rfl (.inl rfl) rfl rfl rfl

/-- C2: with an authenticated active caller, the handler fails with 403
and the permission detail exactly when the caller id differs from the
target user id and the caller holds neither the MODERATOR nor the ADMIN
role, whatever the validated form fields are; a caller acting on its
own id, or holding one of those roles, never receives a 403. -/
theorem create_user_profile_authorization
    (user_id : Nat) (d : List (String × Nat)) (db : DB) (s3 : S3Client)
    (pd : ProfileCreateRequestSchema) (ru : UserModel)
    (hru : db.users.find? (fun u => some u.id == dictGet d "user_id") = some ru)
    (hactive : ru.is_active = true) :
    ((dictGet d "user_id" ≠ some user_id ∧ ru.has_group .MODERATOR = false ∧
        ru.has_group .ADMIN = false) →
      (create_user_profile user_id (.ok d) db s3 pd).response =
        .error ⟨403, some "You don\x27t have permission to edit this profile."⟩) ∧
    ((dictGet d "user_id" = some user_id ∨ ru.has_group .MODERATOR = true ∨
        ru.has_group .ADMIN = true) →
      ∀ det, (create_user_profile user_id (.ok d) db s3 pd).response ≠
        .error ⟨403, det⟩) := by
  constructor
  · rintro ⟨hne, hm, ha⟩
    simp [create_user_profile, hru, hactive, hne, hm, ha]
  · intro hauth det
    have hpass := auth_guard_false user_id (dictGet d "user_id") ru hauth
    simp [create_user_profile, hru, hactive, hpass]
    repeat' split
    all_goals simp

/-- C2 witness: regular user 9 acting on user 5 is forbidden. -/
theorem create_user_profile_authorization_witness :
    (create_user_profile 5 (.ok [("user_id", 9)]) dbNoProfile sampleS3
        samplePD).response =
      .error ⟨403, some "You don\x27t have permission to edit this profile."⟩ :=
  (create_user_profile_authorization 5 [("user_id", 9)] dbNoProfile sampleS3
    samplePD ⟨9, true, .REGULAR⟩ rfl rfl).1 ⟨by decide, rfl, rfl⟩

/-- C3: once a request has passed authentication, authorization, target
resolution and the uniqueness check, if reading the avatar bytes,
uploading them, or resolving the retrieval URL fails, the handler fails
with 500 and the uniform upload-failure detail and no profile is
persisted (database unchanged, no commit); conversely a commit happens
only when all three upload steps succeeded. -/
theorem create_user_profile_upload_failure
    (user_id : Nat) (d : List (String × Nat)) (db : DB) (s3 : S3Client)
    (pd : ProfileCreateRequestSchema) (ru tu : UserModel)
    (hru : db.users.find? (fun u => some u.id == dictGet d "user_id") = some ru)
    (hactive : ru.is_active = true)
    (hauth : dictGet d "user_id" = some user_id ∨
      ru.has_group .MODERATOR = true ∨ ru.has_group .ADMIN = true)
    (htu : db.users.find? (fun u => u.id == user_id) = some tu)
    (htactive : tu.is_active = true)
    (hp : db.profiles.find? (fun q => q.user_id == user_id) = none) :
    ((¬ ∃ bytes url, pd.avatar.read = .ok bytes ∧
        s3.upload_file (avatarKey user_id pd.avatar.filename) bytes = .ok () ∧
        s3.get_file_url (avatarKey user_id pd.avatar.filename) = .ok url) →
      create_user_profile user_id (.ok d) db s3 pd =
        ⟨.error ⟨500, some "Failed to upload avatar. Please try again later."⟩,
          db, true, false⟩) ∧
    ((create_user_profile user_id (.ok d) db s3 pd).committed = true →
      ∃ bytes url, pd.avatar.read = .ok bytes ∧
        s3.upload_file (avatarKey user_id pd.avatar.filename) bytes = .ok () ∧
        s3.get_file_url (avatarKey user_id pd.avatar.filename) = .ok url) := by
  have hpass := auth_guard_false user_id (dictGet d "user_id") ru hauth
  constructor
  · intro hfail
    rcases h1 : pd.avatar.read with e1 | bytes
    · simp [create_user_profile, hru, hactive, hpass, htu, htactive, hp, h1]
    · rcases h2 : s3.upload_file (avatarKey user_id pd.avatar.filename) bytes
        with e2 | u2
      · simp [create_user_profile, hru, hactive, hpass, htu, htactive, hp, h1, h2]
      · rcases h3 : s3.get_file_url (avatarKey user_id pd.avatar.filename)
          with e3 | url
        · simp [create_user_profile, hru, hactive, hpass, htu, htactive, hp,
            h1, h2, h3]
        · exact absurd ⟨bytes, url, h1, (by cases u2; exact h2), h3⟩ hfail
  · intro hc
    rcases h1 : pd.avatar.read with e1 | bytes
    · simp [create_user_profile, hru, hactive, hpass, htu, htactive, hp, h1] at hc
    · rcases h2 : s3.upload_file (avatarKey user_id pd.avatar.filename) bytes
        with e2 | u2
      · simp [create_user_profile, hru, hactive, hpass, htu, htactive, hp,
          h1, h2] at hc
      · rcases h3 : s3.get_file_url (avatarKey user_id pd.avatar.filename)
          with e3 | url
        · simp [create_user_profile, hru, hactive, hpass, htu, htactive, hp,
            h1, h2, h3] at hc
        · exact ⟨bytes, url, rfl, (by cases u2; exact h2), rfl⟩

/-- C3 witness: a storage client whose upload raises produces the 500
with no database change and no commit. -/
theorem create_user_profile_upload_failure_witness :
    create_user_profile 5 (.ok [("user_id", 5)]) dbNoProfile failingS3 samplePD =
      ⟨.error ⟨500, some "Failed to upload avatar. Please try again later."⟩,
        dbNoProfile, true, false⟩ :=
  (create_user_profile_upload_failure 5 [("user_id", 5)] dbNoProfile failingS3
    samplePD ⟨5, true, .REGULAR⟩ ⟨5, true, .REGULAR⟩
    rfl rfl (.inl rfl) rfl rfl rfl).1
    (by rintro ⟨bytes, url, h1, h2, h3⟩; simp [failingS3] at h2)

/-- C7: on the success path the storage key is computed as
avatars/\x7buser_id\x7d_\x7bfilename\x7d; the persisted row stores this
key (not the URL) in its avatar field, while the response carries the
resolved retrieval URL (not the key) in its avatar field; every other
field is copied from the validated form; exactly one row is appended and
the request commits. -/
theorem create_user_profile_success
    (user_id : Nat) (d : List (String × Nat)) (db : DB) (s3 : S3Client)
    (pd : ProfileCreateRequestSchema) (ru tu : UserModel)
    (bytes : List Nat) (url : String)
    (hru : db.users.find? (fun u => some u.id == dictGet d "user_id") = some ru)
    (hactive : ru.is_active = true)
    (hauth : dictGet d "user_id" = some user_id ∨
      ru.has_group .MODERATOR = true ∨ ru.has_group .ADMIN = true)
    (htu : db.users.find? (fun u => u.id == user_id) = some tu)
    (htactive : tu.is_active = true)
    (hp : db.profiles.find? (fun q => q.user_id == user_id) = none)
    (hread : pd.avatar.read = .ok bytes)
    (hup : s3.upload_file (avatarKey user_id pd.avatar.filename) bytes = .ok ())
    (hurl : s3.get_file_url (avatarKey user_id pd.avatar.filename) = .ok url) :
    avatarKey user_id pd.avatar.filename =
      "avatars/" ++ toString user_id ++ "_" ++ pd.avatar.filename ∧
    create_user_profile user_id (.ok d) db s3 pd =
      { response := .ok
          { id := db.next_profile_id
            user_id := user_id
            first_name := pd.first_name
            last_name := pd.last_name
            gender := pd.gender
            date_of_birth := pd.date_of_birth
            info := pd.info
            avatar := url }
        db := { db with
          profiles := db.profiles ++
            [{ id := db.next_profile_id
               user_id := user_id
               first_name := pd.first_name
               last_name := pd.last_name
               gender := pd.gender
               date_of_birth := pd.date_of_birth
               info := pd.info
               avatar := avatarKey user_id pd.avatar.filename }]
          next_profile_id := db.next_profile_id + 1 }
        upload_attempted := true
        committed := true } := by
  refine ⟨rfl, ?_⟩
  have hpass := auth_guard_false user_id (dictGet d "user_id") ru hauth
  simp [create_user_profile, hru, hactive, hpass, htu, htactive, hp,
    hread, hup, hurl]

/-- C7 witness: user 5 creates its own profile; the stored avatar field
is the storage key and the response avatar field is the resolved URL. -/
theorem create_user_profile_success_witness :
    create_user_profile 5 (.ok [("user_id", 5)]) dbNoProfile sampleS3 samplePD =
      { response := .ok
          { id := dbNoProfile.next_profile_id
            user_id := 5
            first_name := samplePD.first_name
            last_name := samplePD.last_name
            gender := samplePD.gender
            date_of_birth := samplePD.date_of_birth
            info := samplePD.info
            avatar := "https://storage.example.com/avatars/5_pic.png" }
        db := { dbNoProfile with
          profiles := dbNoProfile.profiles ++
            [{ id := dbNoProfile.next_profile_id
               user_id := 5
               first_name := samplePD.first_name
               last_name := samplePD.last_name
               gender := samplePD.gender
               date_of_birth := samplePD.date_of_birth
               info := samplePD.info
               avatar := avatarKey 5 samplePD.avatar.filename }]
          next_profile_id := dbNoProfile.next_profile_id + 1 }
        upload_attempted := true
        committed := true } :=
  (create_user_profile_success 5 [("user_id", 5)] dbNoProfile sampleS3 samplePD
    ⟨5, true, .REGULAR⟩ ⟨5, true, .REGULAR⟩ [137, 80]
    "https://storage.example.com/avatars/5_pic.png"
    rfl rfl (.inl rfl) rfl rfl rfl rfl (by decide) (by decide)).2

/-- C5 amended witness: with a valid form body the expired token yields
401 with the decode message. -/
theorem endpoint_auth_after_validation_witness :
    endpoint acceptAllPolicies sampleForm 5 (.error "Token has expired.")
        dbNoProfile sampleS3 =
      ⟨.error ⟨401, some "Token has expired."⟩, dbNoProfile, false, false⟩ :=
  (endpoint_auth_after_validation acceptAllPolicies sampleForm 5
    "Token has expired." dbNoProfile sampleS3).2 samplePD rfl

/-! ## Claim theorem: concurrent duplicate requests (C4) -/

/-- The inductive invariant of the interleaving semantics: the number of
requests that created a profile equals the number of profile rows for
the target user, and that number never exceeds one. -/
def ConcInv (s : ConcState) : Prop :=
  successes s = s.profile_count ∧ s.profile_count ≤ 1

/-- One atomic step of any request preserves the invariant: only the
guarded insert creates a row, and it refuses when a row exists. -/
theorem stepConc_inv (s : ConcState) (i : Nat) (h : ConcInv s) :
    ConcInv (stepConc s i) := by
  obtain ⟨h1, h2⟩ := h
  unfold successes at h1
  unfold stepConc
  cases hg : s.reqs.get? i with
  | none => exact ⟨h1, h2⟩
  | some ph =>
    rw [List.get?_eq_getElem?] at hg
    obtain ⟨hlen, hget⟩ := List.getElem?_eq_some_iff.mp hg
    unfold ConcInv successes
    have hcount := List.countP_set isSuccess s.reqs i (stepReq s.profile_count ph).2 hlen
    rw [hget] at hcount
    cases ph with
    | start =>
      simp [stepReq, isSuccess] at hcount ⊢
      omega
    | checked existing =>
      cases existing with
      | true =>
        simp [stepReq, isSuccess] at hcount ⊢
        omega
      | false =>
        by_cases hz : s.profile_count = 0
        · simp [stepReq, isSuccess, hz] at hcount ⊢
          omega
        · simp [stepReq, isSuccess, hz] at hcount ⊢
          omega
    | done b =>
      have hpos : b = true → 1 ≤ s.reqs.countP isSuccess := by
        intro hb
        refine List.countP_pos_iff.mpr ⟨s.reqs[i], List.getElem_mem hlen, ?_⟩
        rw [hget, hb]
        rfl
      cases b with
      | true =>
        have hp1 := hpos rfl
        simp [stepReq, isSuccess] at hcount ⊢
        omega
      | false =>
        simp [stepReq, isSuccess] at hcount ⊢
        omega

/-- The invariant is preserved by every schedule. -/
theorem execConc_inv (sched : List Nat) (s : ConcState) (h : ConcInv s) :
    ConcInv (execConc s sched) := by
  induction sched generalizing s with
  | nil => exact h
  | cons i tl ih => exact ih (stepConc s i) (stepConc_inv s i h)

/-- C4: for any number of concurrent identical requests against a user
with no profile and any interleaving of their database steps, at most
one profile row ever exists for the user and at most one of the
requests succeeds: the insert is atomic under the uniqueness constraint,
so the race window between the read check and the insert cannot create
a second row. -/
theorem concurrent_requests_at_most_one_profile (n : Nat) (sched : List Nat) :
    (execConc (initConc n) sched).profile_count ≤ 1 ∧
    successes (execConc (initConc n) sched) ≤ 1 := by
  have hinit : ConcInv (initConc n) := by
    constructor
    · simp only [initConc, successes, List.countP_replicate]
      rfl
    · simp [initConc]
  obtain ⟨h1, h2⟩ := execConc_inv sched (initConc n) hinit
  exact ⟨h2, by omega⟩

end Profiles
